import Mathlib

/-!
Verification of the requirement/test validation core of the repository
(files core/validate.py, core/extract.py, core/llm_providers.py, app/main.py).

The Python code is shallowly embedded:
* floats are modelled as rationals (all numeric literals appearing in the
  claims are exactly representable IEEE doubles, and the arithmetic the
  claims exercise is exact);
* the pint unit registry is modelled over the unit vocabulary the program
  uses (force units kN and N, length unit mm); any other unit string fails
  to parse, and a dimensionally incompatible pair fails to convert, which
  is exactly the behaviour the code relies on (a failure raises, and the
  caller catches every exception);
* Python regular-expression searches are embedded as executable scanners
  over lists of characters with leftmost-match semantics and ordered
  alternation, one scanner per regex of the source;
* the external LLM backend is a value of a `Backend` structure: an
  availability flag plus a chat function returning `Except`, so that a
  transport failure is an `error` value; the consumers are total
  functions, which models the fact that they catch every exception.
-/

namespace ProjectLLM

/-! ## Basic Python string primitives -/

/-- ASCII lower-casing of one character; models `str.lower` on the ASCII
range, which covers every pattern and input the program matches. -/
def lcChar (c : Char) : Char :=
  if 'A' ≤ c ∧ c ≤ 'Z' then Char.ofNat (c.toNat + 32) else c

/-- Python whitespace class `\s` (ASCII part). -/
def isWs (c : Char) : Bool :=
  c = ' ' ∨ c = '\t' ∨ c = '\n' ∨ c = '\r' ∨ c = '\x0b' ∨ c = '\x0c'

/-- Regex word character `\w`: letters, digits and underscore. -/
def isWordChar (c : Char) : Bool :=
  ('a' ≤ c ∧ c ≤ 'z') ∨ ('A' ≤ c ∧ c ≤ 'Z') ∨ ('0' ≤ c ∧ c ≤ '9') ∨ c = '_'

/-- Substring containment on character lists: the Python `in` operator. -/
def infixOf : List Char → List Char → Bool
  | pat, [] => pat.isPrefixOf []
  | pat, c :: rest => pat.isPrefixOf (c :: rest) || infixOf pat rest

/-- Python `sub in s` on strings. -/
def pyIn (sub s : String) : Bool := infixOf sub.toList s.toList

/-- Python `s.lower()` (ASCII). -/
def pyLower (s : String) : String := ⟨s.toList.map lcChar⟩

/-- Python `s.strip()`: trim whitespace at both ends. -/
def pyStrip (s : String) : String :=
  ⟨((s.toList.dropWhile isWs).reverse.dropWhile isWs).reverse⟩

/-- One step of Python `str.replace` with nonempty pattern `p :: ps`:
left-to-right, non-overlapping, replacing by the empty string (the only
replacement the program uses).  `fuel` bounds recursion by the input
length. -/
def replaceEmptyAux (p : Char) (ps : List Char) : Nat → List Char → List Char
  | 0, s => s
  | _ + 1, [] => []
  | n + 1, c :: rest =>
    if p = c ∧ ps.isPrefixOf rest then replaceEmptyAux p ps n (rest.drop ps.length)
    else c :: replaceEmptyAux p ps n rest

/-- Python `s.replace(pat, "")`. -/
def pyReplaceEmpty (s pat : String) : String :=
  match pat.toList with
  | [] => s
  | p :: ps => ⟨replaceEmptyAux p ps s.toList.length s.toList⟩

/-! ## Generic scanners (leftmost regex search) -/

/-- Leftmost search: try the positional matcher `f` at every suffix, left
to right, also at the empty suffix. -/
def scanCap (f : List Char → Option α) : List Char → Option α
  | [] => f []
  | c :: rest =>
    match f (c :: rest) with
    | some a => some a
    | none => scanCap f rest

/-- Leftmost search with word-boundary context: `f` also receives the
character immediately before the current position (`none` at the start of
the string). -/
def scanCapB (f : Option Char → List Char → Option α) : Option Char → List Char → Option α
  | prev, [] => f prev []
  | prev, c :: rest =>
    match f prev (c :: rest) with
    | some a => some a
    | none => scanCapB f (some c) rest

/-- Boolean leftmost search. -/
def scanPred (f : List Char → Bool) : List Char → Bool
  | [] => f []
  | c :: rest => f (c :: rest) || scanPred f rest

/-- `\b` holds before a word character when the previous character is
absent or not a word character. -/
def boundaryBefore : Option Char → Bool
  | none => true
  | some c => !isWordChar c

/-- `\b` holds after a word character when the next character is absent or
not a word character. -/
def boundaryAfter : List Char → Bool
  | [] => true
  | c :: _ => !isWordChar c

/-- Skip one or more `\s` characters (maximal munch; every continuation in
the embedded patterns starts with a non-whitespace character, so maximal
munch agrees with the backtracking regex engine). -/
def skipWs1 (s : List Char) : Option (List Char) :=
  match s with
  | c :: rest => if isWs c then some (rest.dropWhile isWs) else none
  | [] => none

/-- Skip zero or more `\s` characters (maximal munch). -/
def skipWs0 (s : List Char) : List Char := s.dropWhile isWs

/-- Ordered alternation over literal candidates with continuation
backtracking: try each candidate in order as a leading segment, run the
continuation on the rest, and keep the first success. -/
def altK (cands : List (List Char)) (s : List Char) (k : List Char → Option α) : Option α :=
  cands.findSome? fun cand => if cand.isPrefixOf s then k (s.drop cand.length) else none

/-- Word-bounded search of a literal phrase (`\bphrase\b`); the phrase
starts and ends with word characters in every use. -/
def wordSearchAux (w : List Char) : Option Char → List Char → Bool
  | prev, s =>
    (boundaryBefore prev && w.isPrefixOf s && boundaryAfter (s.drop w.length)) ||
      match s with
      | [] => false
      | c :: rest => wordSearchAux w (some c) rest

/-- `re.search(r"\b<w>\b", txt, re.I)` as a Boolean. -/
def wordSearchCI (w : String) (txt : String) : Bool :=
  wordSearchAux (w.toList.map lcChar) none (txt.toList.map lcChar)

/-- `re.search(r"<w1>\s+<w2>", txt, re.I)` as a Boolean (no word
boundaries, exactly as in the source patterns `at\s+least` and
`not\s+exceed`). -/
def gapSearchCI (w1 w2 : String) (txt : String) : Bool :=
  scanPred
    (fun s =>
      (w1.toList.map lcChar).isPrefixOf s &&
        match skipWs1 (s.drop w1.length) with
        | some r => (w2.toList.map lcChar).isPrefixOf r
        | none => false)
    (txt.toList.map lcChar)

/-- Parse a nonempty maximal run of ASCII digits; returns the digits and
the rest. -/
def takeDigits (s : List Char) : List Char × List Char :=
  (s.takeWhile Char.isDigit, s.dropWhile Char.isDigit)

/-- Numeric value of a digit list. -/
def digitsToNat (ds : List Char) : Nat :=
  ds.foldl (fun acc c => 10 * acc + (c.toNat - '0'.toNat)) 0

/-- Value of `float(<intpart>.<fracpart>)` as a rational. -/
def decimalToRat (intpart fracpart : List Char) : ℚ :=
  if fracpart = [] then (digitsToNat intpart : ℚ)
  else (digitsToNat intpart : ℚ) + (digitsToNat fracpart : ℚ) / (10 : ℚ) ^ fracpart.length

/-- Positional matcher for `\d+(?:\.\d+)?` with greedy optional fraction:
returns the value and the rest of the input after the match, preferring
the variant that consumes the fraction (the continuation decides, exactly
as the backtracking engine does). -/
def numberAt (s : List Char) (k : ℚ → List Char → Option α) : Option α :=
  match takeDigits s with
  | ([], _) => none
  | (ds, rest) =>
    match rest with
    | '.' :: r2 =>
      match takeDigits r2 with
      | ([], _) => k (decimalToRat ds []) rest
      | (fs, r3) =>
        match k (decimalToRat ds fs) r3 with
        | some a => some a
        | none => k (decimalToRat ds []) rest
    | _ => k (decimalToRat ds []) rest

/-! ## core/validate.py -/

/-- Models the pint `UnitRegistry` over the unit vocabulary of the
program: dimension (`0` = force, `1` = length) and conversion factor to
the base unit of the dimension.  Any other unit string is rejected, which
models the `UndefinedUnitError` raised by `parse_units`. -/
def unitTable (u : String) : Option (Nat × ℚ) :=
  if u = "kN" then some (0, 1000)
  else if u = "N" then some (0, 1)
  else if u = "mm" then some (1, 1)
  else none

/-- `normalize(value, from_unit, to_unit)`: convert via pint; `none`
models the exception raised for an unknown unit or a dimensionally
incompatible pair. -/
def normalize (value : ℚ) (from_unit to_unit : String) : Option ℚ :=
  match unitTable from_unit, unitTable to_unit with
  | some (d1, f1), some (d2, f2) => if d1 = d2 then some (value * f1 / f2) else none
  | _, _ => none

/-- The `OPS` comparator table of core/validate.py (`=` is the tolerance
comparison `abs(a - b) < 1e-9`). -/
def OPS (c : String) : Option (ℚ → ℚ → Bool) :=
  if c = ">" then some fun a b => decide (a > b)
  else if c = "≥" then some fun a b => decide (a ≥ b)
  else if c = ">=" then some fun a b => decide (a ≥ b)
  else if c = "=" then some fun a b => decide (|a - b| < 1 / 1000000000)
  else if c = "≤" then some fun a b => decide (a ≤ b)
  else if c = "<=" then some fun a b => decide (a ≤ b)
  else if c = "<" then some fun a b => decide (a < b)
  else none

/-- The `req` argument of `validate_row`. -/
structure Req where
  comparator : String
  value : ℚ
  unit : String
deriving DecidableEq

/-- The `test` argument of `validate_row`. -/
structure TestM where
  measured_value : ℚ
  unit : String
deriving DecidableEq

/-- The dict returned by `validate_row`; a key absent from the returned
dict is `none`. -/
structure VResult where
  status : String
  reason : Option String
  measured_norm : Option ℚ
  target : Option ℚ
  unit : Option String
deriving DecidableEq

/-- `validate_row(req, test)` of core/validate.py. -/
def validate_row (req : Req) (test : TestM) : VResult :=
  match normalize test.measured_value test.unit req.unit with
  | none =>
    { status := "unknown", reason := some "unit_conversion_failed",
      measured_norm := none, target := none, unit := none }
  | some mv =>
    match OPS req.comparator with
    | none =>
      { status := "unknown", reason := some "invalid_comparator",
        measured_norm := none, target := none, unit := none }
    | some op =>
      { status := if op mv req.value then "pass" else "fail", reason := none,
        measured_norm := some mv, target := some req.value, unit := some req.unit }

/-! ## core/extract.py — fallback requirement extractor -/

/-- Case-insensitive `in` (both sides lower-cased). -/
def pyInCI (sub txt : String) : Bool :=
  infixOf (sub.toList.map lcChar) (txt.toList.map lcChar)

/-- Case-insensitive prefix check that also returns the original-case
matched characters and the rest. -/
def stripPrefixCI (pat : List Char) (s : List Char) : Option (List Char × List Char) :=
  let pre := s.take pat.length
  if pre.map lcChar = pat ∧ pre.length = pat.length then some (pre, s.drop pat.length)
  else none

/-- The `METRIC_ALIASES` table (insertion order of the Python dict). -/
def METRIC_ALIASES : List (String × String) :=
  [("shear", "shear_strength"), ("shear_strength", "shear_strength"),
   ("gap", "gap"), ("rigidity", "rigidity")]

/-- `_alias_metric(txt)`: first alias whose word-bounded, case-insensitive
pattern occurs in the text. -/
def _alias_metric (txt : String) : Option String :=
  METRIC_ALIASES.findSome? fun kv =>
    if wordSearchCI kv.1 txt then some kv.2 else none

/-- Positional matcher for `(\d+(?:\.\d+)?)\s*(kN|N|mm)\b` (re.I): value
of group 1 and the original-case characters of group 2. -/
def numUnitReqAt (s : List Char) : Option (ℚ × String) :=
  numberAt s fun v rest =>
    let r := skipWs0 rest
    ["kN".toList.map lcChar, "N".toList.map lcChar, "mm".toList.map lcChar].findSome?
      fun cand =>
        match stripPrefixCI cand r with
        | some (orig, r2) => if boundaryAfter r2 then some (v, (⟨orig⟩ : String)) else none
        | none => none

/-- `re.search(r"(\d+(?:\.\d+)?)\s*(kN|N|mm)\b", text, re.I)` (leftmost). -/
def numUnitReq (text : String) : Option (ℚ × String) :=
  scanCap numUnitReqAt text.toList

/-- The comparator cue chain of `_regex_req` (lines 41–46): each guard is
one `re.search` of the source, checked in the if/elif order. -/
def reqComparator (text : String) : Option String :=
  if pyInCI "≥" text || pyInCI ">=" text || gapSearchCI "at" "least" text ||
      pyInCI "minimum" text || pyInCI "min" text then some "≥"
  else if pyInCI "≤" text || pyInCI "<=" text || gapSearchCI "not" "exceed" text ||
      pyInCI "maximum" text || pyInCI "max" text then some "≤"
  else if wordSearchCI "equal" text || wordSearchCI "equals" text ||
      (match text.toList with
       | '=' :: c :: _ => isWordChar c
       | _ => false) then some "="
  else if wordSearchCI "more than" text || pyInCI ">" text then some ">"
  else if wordSearchCI "less than" text || pyInCI "<" text then some "<"
  else none

/-- The component vocabulary of `_regex_req` (line 50), in source order. -/
def REQ_COMPONENTS : List String :=
  ["door_frame", "panel", "b_pillar", "roof", "hood", "door"]

/-- Component hint of `_regex_req`: first word-bounded, case-insensitive
hit, in table order. -/
def reqComponent (text : String) : Option String :=
  REQ_COMPONENTS.findSome? fun c => if wordSearchCI c text then some c else none

/-- Positional matcher for `-?\d+\s*°\s*C` (case-sensitive), returning
the matched characters. -/
def tempAt (s : List Char) : Option String :=
  let (neg, s1) : List Char × List Char :=
    match s with
    | '-' :: r => (['-'], r)
    | _ => ([], s)
  match takeDigits s1 with
  | ([], _) => none
  | (ds, r1) =>
    let w1 := r1.takeWhile isWs
    match r1.dropWhile isWs with
    | '°' :: r3 =>
      let w2 := r3.takeWhile isWs
      match r3.dropWhile isWs with
      | 'C' :: _ => some ⟨neg ++ ds ++ w1 ++ ['°'] ++ w2 ++ ['C']⟩
      | _ => none
    | _ => none

/-- `re.search(r"(-?\d+\s*°\s*C)", text)` (leftmost, case-sensitive),
group 1. -/
def tempScan (text : String) : Option String :=
  scanCap tempAt text.toList

/-- `re.search(r"ambient|room temperature", text, re.I)` as a Boolean. -/
def ambientMention (text : String) : Bool :=
  pyInCI "ambient" text || pyInCI "room temperature" text

/-- The `ReqJSON` record (a field absent or null in the Python dict is
`none`). -/
structure ReqJSON where
  metric : Option String
  comparator : Option String
  value : Option ℚ
  unit : Option String
  component : Option String
  condition : Option String
deriving DecidableEq

/-- `_regex_req(text)` of core/extract.py. -/
def _regex_req (text : String) : ReqJSON :=
  let vu := numUnitReq text
  { metric := _alias_metric text,
    comparator := reqComparator text,
    value := vu.map Prod.fst,
    unit := vu.map Prod.snd,
    component := reqComponent text,
    condition :=
      if ambientMention text then some "ambient"
      else match tempScan text with
        | some t => some t
        | none => none }

/-! ## Claims C1, C2, C4 (Row Validator) -/

/-- C1: `validate_row` returns status "unknown" exactly when unit
conversion of the measured value into the requirement unit fails or the
comparator is not in the `OPS` table; it returns "pass" or "fail" only
when both succeeded. -/
theorem validate_row_unknown_iff (req : Req) (test : TestM) :
    ((validate_row req test).status = "unknown" ↔
      (normalize test.measured_value test.unit req.unit = none ∨ OPS req.comparator = none)) ∧
    ((validate_row req test).status = "pass" ∨ (validate_row req test).status = "fail" →
      (normalize test.measured_value test.unit req.unit).isSome ∧
        (OPS req.comparator).isSome) := by
  cases hn : normalize test.measured_value test.unit req.unit with
  | none => simp [validate_row, hn]
  | some mv =>
    cases ho : OPS req.comparator with
    | none => simp [validate_row, hn, ho]
    | some op =>
      cases hb : op mv req.value <;> simp [validate_row, hn, ho, hb]

/-- Witness for C1 at a concrete input. -/
theorem validate_row_unknown_iff_witness :
    (validate_row ⟨"≥", 1, "kN"⟩ ⟨1, "mm"⟩).status = "unknown" :=
  (validate_row_unknown_iff ⟨"≥", 1, "kN"⟩ ⟨1, "mm"⟩).1.mpr
    (Or.inl (by simp [normalize, unitTable]))

/-- C2: the two worked examples of the spec: a 6000 N measurement against
the requirement `≥ 5.5 kN` passes with normalized measurement 6, target
5.5 and unit "kN"; a 5000 N measurement fails with normalized
measurement 5. -/
theorem validate_row_examples :
    validate_row ⟨"≥", 5.5, "kN"⟩ ⟨6000, "N"⟩ =
      ⟨"pass", none, some 6, some 5.5, some "kN"⟩ ∧
    validate_row ⟨"≥", 5.5, "kN"⟩ ⟨5000, "N"⟩ =
      ⟨"fail", none, some 5, some 5.5, some "kN"⟩ := by
  constructor <;>
    · simp [validate_row, normalize, unitTable, OPS]
      norm_num

/-- Counterexample to C4: with requirement comparator "?" (unrecognized)
and compatible units, normalization succeeds, yet the result of
`validate_row` carries no `measured_norm` (the invalid-comparator branch
returns only status and reason). -/
theorem measured_norm_dropped_on_invalid_comparator :
    (normalize (1 : ℚ) "N" "N").isSome = true ∧
    (validate_row ⟨"?", 1, "N"⟩ ⟨1, "N"⟩).measured_norm = none := by
  constructor
  · simp [normalize, unitTable]
  · simp [validate_row, normalize, unitTable, OPS]

/-- C4 (amended): `measured_norm` is populated exactly when normalization
succeeds and the comparator is recognized, i.e. exactly in the pass/fail
outcomes; the unknown outcome never carries it. -/
theorem measured_norm_iff_normalized_and_comparator (req : Req) (test : TestM) :
    (validate_row req test).measured_norm.isSome ↔
      ((normalize test.measured_value test.unit req.unit).isSome ∧
        (OPS req.comparator).isSome) := by
  cases hn : normalize test.measured_value test.unit req.unit with
  | none => simp [validate_row, hn]
  | some mv =>
    cases ho : OPS req.comparator with
    | none => simp [validate_row, hn, ho]
    | some op => simp [validate_row, hn, ho]

/-! ## Claims C5 and C8 (fallback extraction policies) -/

/-- Modelled from the spec (claim C5 wording): the comparator cue policy
exactly as the spec states it — the `≥` rule fires exactly on the cues
"≥", "at least", "minimum", "min"; the `≤` rule on "≤", "not exceed",
"maximum", "max"; then "equals"/leading "=", then "more than"/">",
then "less than"/"<"; first match wins, otherwise null.  (This is the
comparison definition for the refinement claim; it omits the ASCII cues
">=" and "<=", which the spec does not list.) -/
def specComparatorPolicy (text : String) : Option String :=
  if pyInCI "≥" text || gapSearchCI "at" "least" text ||
      pyInCI "minimum" text || pyInCI "min" text then some "≥"
  else if pyInCI "≤" text || gapSearchCI "not" "exceed" text ||
      pyInCI "maximum" text || pyInCI "max" text then some "≤"
  else if wordSearchCI "equal" text || wordSearchCI "equals" text ||
      (match text.toList with
       | '=' :: c :: _ => isWordChar c
       | _ => false) then some "="
  else if wordSearchCI "more than" text || pyInCI ">" text then some ">"
  else if wordSearchCI "less than" text || pyInCI "<" text then some "<"
  else none

/-- Counterexample to C5: on the inputs ">= 6 kN" and "<= 6 kN" the code
extracts "≥" resp. "≤" (the first two rules also fire on the ASCII cues
">=" and "<="), while the policy stated by the claim, whose `≥`/`≤` rules
fire exactly on the listed cues, would extract ">" resp. "<". -/
theorem comparator_policy_counterexample :
    (_regex_req ">= 6 kN").comparator = some "≥" ∧
    specComparatorPolicy ">= 6 kN" = some ">" ∧
    (_regex_req "<= 6 kN").comparator = some "≤" ∧
    specComparatorPolicy "<= 6 kN" = some "<" := by
  refine ⟨by decide, by decide, by decide, by decide⟩

/-- Modelled from the spec, as amended by the counterexample: the same
priority policy with ">=" added to the `≥` cues and "<=" added to the
`≤` cues. -/
def amendedComparatorPolicy (text : String) : Option String :=
  if pyInCI "≥" text || pyInCI ">=" text || gapSearchCI "at" "least" text ||
      pyInCI "minimum" text || pyInCI "min" text then some "≥"
  else if pyInCI "≤" text || pyInCI "<=" text || gapSearchCI "not" "exceed" text ||
      pyInCI "maximum" text || pyInCI "max" text then some "≤"
  else if wordSearchCI "equal" text || wordSearchCI "equals" text ||
      (match text.toList with
       | '=' :: c :: _ => isWordChar c
       | _ => false) then some "="
  else if wordSearchCI "more than" text || pyInCI ">" text then some ">"
  else if wordSearchCI "less than" text || pyInCI "<" text then some "<"
  else none

/-- C5 (amended): the fallback comparator is chosen by the fixed priority
policy of the spec with the ASCII cues ">=" (→ "≥") and "<=" (→ "≤")
included in the first two rules; the first matching rule wins and if no
rule fires the comparator is null. -/
theorem comparator_follows_amended_policy (text : String) :
    (_regex_req text).comparator = amendedComparatorPolicy text := rfl

/-- Counterexample to C8: on "-20°C ambient" the temperature pattern is
present and matches "-20°C", yet the code extracts condition "ambient"
(the ambient check is a second independent `if` that overwrites the
temperature), contradicting the claim that the temperature string wins. -/
theorem condition_ambient_overwrites_temperature :
    tempScan "-20°C ambient" = some "-20°C" ∧
    (_regex_req "-20°C ambient").condition = some "ambient" ∧
    (_regex_req "-20°C ambient").condition ≠ some "-20°C" := by
  refine ⟨by decide, by decide, by decide⟩

/-- C8 (amended): "ambient"/"room temperature" takes precedence — if the
text mentions either (case-insensitively), the condition is "ambient"
even when a temperature pattern is present; otherwise the condition is
the matched temperature string if the pattern `-?digits°C` occurs, and
null if neither is present. -/
theorem condition_policy (text : String) :
    (_regex_req text).condition =
      (if ambientMention text then some "ambient" else tempScan text) := by
  simp only [_regex_req]
  cases tempScan text <;> cases h : ambientMention text <;> simp [h]

/-! ## core/extract.py — fallback query-to-filter parser (`_regex_filters`) -/

/-- The `ChatFilter` record (all fields optional, default null). -/
structure ChatFilter where
  component : Option String
  metric : Option String
  status : Option String
  min_value : Option ℚ
  unit : Option String
deriving DecidableEq

/-- Status parsing of `_regex_filters` (lines 157–170): raw substring
tests on the lower-cased query in the literal precedence
failed/fail/passed/pass; the matched word is removed (all occurrences,
Python `str.replace`) from the query used for component matching. -/
def statusStep (ql : String) : Option String × String :=
  if pyIn "failed" ql then (some "fail", pyReplaceEmpty ql "failed")
  else if pyIn "fail" ql then (some "fail", pyReplaceEmpty ql "fail")
  else if pyIn "passed" ql then (some "pass", pyReplaceEmpty ql "passed")
  else if pyIn "pass" ql then (some "pass", pyReplaceEmpty ql "pass")
  else (none, ql)

/-- The component vocabulary of `_regex_filters` (line 173), in source
order. -/
def FILTER_COMPONENTS : List String :=
  ["door_frame", "panel", "b_pillar", "roof", "hood", "door", "bumper", "trunk",
   "fender", "windshield", "quarter_panel", "spoiler", "mirror", "grille",
   "tailgate", "headlight", "antenna", "wheel_well", "fuel_door", "license_plate",
   "exhaust", "side_skirt", "sunroof", "dashboard", "console", "seat", "airbag",
   "steering", "pedal", "armrest", "cupholder", "visor", "handle", "vent", "trim"]

/-- Component parsing of `_regex_filters`: first raw-substring hit in the
status-stripped query, in table order. -/
def filterComponentScan (spq : String) : Option String :=
  FILTER_COMPONENTS.findSome? fun c => if pyIn c spq then some c else none

/-- Metric parsing of `_regex_filters`: first raw-substring hit of an
alias key in the lower-cased query (no word boundaries here, unlike
`_alias_metric`). -/
def filterMetricScan (ql : String) : Option String :=
  METRIC_ALIASES.findSome? fun kv => if pyIn kv.1 ql then some kv.2 else none

/-- Capture `(kn|n|mm)` (ordered alternation, no continuation). -/
def capUnit (s : List Char) : Option String :=
  if ['k', 'n'].isPrefixOf s then some "kn"
  else if ['n'].isPrefixOf s then some "n"
  else if ['m', 'm'].isPrefixOf s then some "mm"
  else none

/-- Capture `(kn|n|mm)` with a continuation (ordered alternation with
backtracking into the continuation). -/
def capUnitK (s : List Char) (k : String → List Char → Option α) : Option α :=
  (if ['k', 'n'].isPrefixOf s then k "kn" (s.drop 2) else none) <|>
  (if ['n'].isPrefixOf s then k "n" (s.drop 1) else none) <|>
  (if ['m', 'm'].isPrefixOf s then k "mm" (s.drop 2) else none)

/-- Unit pattern 1: `(?:unit|units?)\s+(?:having|with|of|in|is|are)\s*(kn|n|mm)`. -/
def unitPat1At (s : List Char) : Option String :=
  altK ["unit".toList, "units".toList] s fun r1 =>
    (skipWs1 r1).bind fun r2 =>
      altK ["having".toList, "with".toList, "of".toList, "in".toList,
            "is".toList, "are".toList] r2 fun r3 =>
        capUnit (skipWs0 r3)

/-- Unit pattern 2: `(?:having|with)\s+unit\s+(kn|n|mm)`. -/
def unitPat2At (s : List Char) : Option String :=
  altK ["having".toList, "with".toList] s fun r1 =>
    (skipWs1 r1).bind fun r2 =>
      if "unit".toList.isPrefixOf r2 then
        (skipWs1 (r2.drop 4)).bind fun r3 => capUnit r3
      else none

/-- Unit pattern 3: `(?:in|with)\s+(kn|n|mm)\s+(?:unit|units?)` (the
trailing group only needs the leading text "unit"). -/
def unitPat3At (s : List Char) : Option String :=
  altK ["in".toList, "with".toList] s fun r1 =>
    (skipWs1 r1).bind fun r2 =>
      capUnitK r2 fun u r3 =>
        (skipWs1 r3).bind fun r4 =>
          if "unit".toList.isPrefixOf r4 then some u else none

/-- Unit pattern 4: `\b(kn|n|mm)\s+(?:unit|units?)` (word boundary before
the captured unit token). -/
def unitPat4At (prev : Option Char) (s : List Char) : Option String :=
  if boundaryBefore prev then
    capUnitK s fun u r =>
      (skipWs1 r).bind fun r2 =>
        if "unit".toList.isPrefixOf r2 then some u else none
  else none

/-- Unit pattern 5: `(?:unit|units?)\s+(?:=|equals?|is)\s*(kn|n|mm)`. -/
def unitPat5At (s : List Char) : Option String :=
  altK ["unit".toList, "units".toList] s fun r1 =>
    (skipWs1 r1).bind fun r2 =>
      altK ["=".toList, "equals".toList, "equal".toList, "is".toList] r2 fun r3 =>
        capUnit (skipWs0 r3)

/-- Unit pattern 6: `unit\s+having\s+(kn|n|mm)`. -/
def unitPat6At (s : List Char) : Option String :=
  if "unit".toList.isPrefixOf s then
    (skipWs1 (s.drop 4)).bind fun r1 =>
      if "having".toList.isPrefixOf r1 then
        (skipWs1 (r1.drop 6)).bind fun r2 => capUnit r2
      else none
  else none

/-- Tail `having\s+(kn|n|mm)` shared by unit pattern 7. -/
def havingTail (r : List Char) : Option String :=
  if "having".toList.isPrefixOf r then
    (skipWs1 (r.drop 6)).bind fun r2 => capUnit r2
  else none

/-- Unit pattern 7: `with\s+(?:unit\s+)?having\s+(kn|n|mm)` (greedy
optional group: the variant consuming `unit\s+` is tried first). -/
def unitPat7At (s : List Char) : Option String :=
  if "with".toList.isPrefixOf s then
    (skipWs1 (s.drop 4)).bind fun r2 =>
      match (if "unit".toList.isPrefixOf r2 then
               (skipWs1 (r2.drop 4)).bind havingTail
             else none) with
      | some u => some u
      | none => havingTail r2
  else none

/-- The `unit_patterns` loop (lines 185–206): each pattern is searched in
the whole query, in source order; the first pattern that matches anywhere
wins and the loop breaks.  Returns the captured token. -/
def unitPatternScan (ql : List Char) : Option String :=
  (scanCap unitPat1At ql) <|> (scanCap unitPat2At ql) <|> (scanCap unitPat3At ql) <|>
    (scanCapB unitPat4At none ql) <|> (scanCap unitPat5At ql) <|>
    (scanCap unitPat6At ql) <|> (scanCap unitPat7At ql)

/-- The unit-token normalization chain of the source (`"kn"→"kN"`,
`"n"→"N"`, `"mm"→"mm"`). -/
def normUnitTok (u : String) : Option String :=
  if u = "kn" then some "kN"
  else if u = "n" then some "N"
  else if u = "mm" then some "mm"
  else none

/-- `re.search(r"(\d+(?:\.\d+)?)\s*(kn|n|mm)", ql)` (leftmost): value and
captured unit token. -/
def numUnitScan (ql : List Char) : Option (ℚ × String) :=
  scanCap
    (fun s => numberAt s fun v rest => (capUnit (skipWs0 rest)).map fun u => (v, u))
    ql

/-- Threshold pattern 1:
`(?:greater than|more than|above|>|≥)\s*(\d+(?:\.\d+)?)`. -/
def thresh1At (s : List Char) : Option ℚ :=
  altK ["greater than".toList, "more than".toList, "above".toList,
        ">".toList, "≥".toList] s fun r =>
    numberAt (skipWs0 r) fun v _ => some v

/-- Threshold pattern 2: `(\d+(?:\.\d+)?)\s*(?:or more|or greater|plus)`. -/
def thresh2At (s : List Char) : Option ℚ :=
  numberAt s fun v rest =>
    altK ["or more".toList, "or greater".toList, "plus".toList] (skipWs0 rest)
      fun _ => some v

/-- Threshold pattern 3: `measured_norm\s*[>≥]\s*(\d+(?:\.\d+)?)`. -/
def thresh3At (s : List Char) : Option ℚ :=
  if "measured_norm".toList.isPrefixOf s then
    match skipWs0 (s.drop 13) with
    | c :: r2 =>
      if c = '>' ∨ c = '≥' then numberAt (skipWs0 r2) fun v _ => some v else none
    | [] => none
  else none

/-- The threshold-only pattern loop (lines 223–231), in source order. -/
def thresholdScan (ql : List Char) : Option ℚ :=
  (scanCap thresh1At ql) <|> (scanCap thresh2At ql) <|> (scanCap thresh3At ql)

/-- Unit inference of the threshold-only branch (lines 233–238): raw
substring tests on the whole lower-cased query. -/
def inferUnit (ql : String) : Option String :=
  if pyIn "kn" ql || pyIn "kilo" ql then some "kN"
  else if pyIn "n" ql && !(pyIn "mm" ql) then some "N"
  else if pyIn "mm" ql then some "mm"
  else none

/-- `_regex_filters(q)` of core/extract.py. -/
def _regex_filters (q : String) : ChatFilter :=
  let ql := pyLower q
  let st := statusStep ql
  let unitPat := (unitPatternScan ql.toList).bind normUnitTok
  let numUnit := if unitPat.isSome then none else numUnitScan ql.toList
  let thresh := if unitPat.isSome || numUnit.isSome then none else thresholdScan ql.toList
  { component := filterComponentScan st.2,
    metric := filterMetricScan ql,
    status := st.1,
    min_value :=
      match numUnit with
      | some (v, _) => some v
      | none => thresh,
    unit :=
      match unitPat with
      | some u => some u
      | none =>
        match numUnit with
        | some (_, u) => normUnitTok u
        | none =>
          match thresh with
          | some _ => inferUnit ql
          | none => none }

/-! ## Claims C6, C7, C10 (fallback query parser) -/

/-- Containment is monotone: if `p1` is a prefix of `p2` and `p2` occurs
in `s`, then `p1` occurs in `s`. -/
theorem infixOf_mono {p1 p2 : List Char} (h12 : p1.isPrefixOf p2 = true) :
    ∀ s : List Char, infixOf p2 s = true → infixOf p1 s = true := by
  intro s
  induction s with
  | nil =>
    intro h
    simp only [infixOf] at h ⊢
    exact List.isPrefixOf_iff_prefix.mpr
      ((List.isPrefixOf_iff_prefix.mp h12).trans (List.isPrefixOf_iff_prefix.mp h))
  | cons c rest ih =>
    intro h
    simp only [infixOf, Bool.or_eq_true] at h ⊢
    cases h with
    | inl hp =>
      exact Or.inl (List.isPrefixOf_iff_prefix.mpr
        ((List.isPrefixOf_iff_prefix.mp h12).trans (List.isPrefixOf_iff_prefix.mp hp)))
    | inr hi => exact Or.inr (ih hi)

/-- `pyIn` unfolded. -/
theorem pyIn_def (a b : String) : pyIn a b = infixOf a.toList b.toList := rfl

/-- C6: the three fallback filter parses of the spec, evaluated exactly:
"show failed door tests" → status fail and component door, all other
fields null; "show tests with unit kN" → only unit kN; "show failed
tests > 100 N" → status fail, min_value 100 and unit N. -/
theorem regex_filters_examples :
    _regex_filters "show failed door tests" =
      ⟨some "door", none, some "fail", none, none⟩ ∧
    _regex_filters "show tests with unit kN" =
      ⟨none, none, none, none, some "kN"⟩ ∧
    _regex_filters "show failed tests > 100 N" =
      ⟨none, none, some "fail", some 100, some "N"⟩ := by
  refine ⟨by decide, by decide, by decide⟩

/-- Counterexample to C7: the threshold-only query "greater than 100"
contains no unit token anywhere (no word-bounded occurrence of "kn", "n"
or "mm"), yet the code sets unit "N": the inference tests the bare letter
"n" as a raw substring, which occurs inside the word "than". -/
theorem threshold_unit_inferred_without_token :
    wordSearchCI "kn" "greater than 100" = false ∧
    wordSearchCI "n" "greater than 100" = false ∧
    wordSearchCI "mm" "greater than 100" = false ∧
    _regex_filters "greater than 100" = ⟨none, none, none, some 100, some "N"⟩ := by
  refine ⟨by decide, by decide, by decide, by decide⟩

/-- C7 (amended): when no unit-only pattern and no number-with-unit
pattern matched but a threshold-only cue did, `min_value` is the cue
number and the unit is inferred by raw substring tests on the whole
lower-cased query: "kn" or "kilo" anywhere → kN; else the letter "n"
anywhere (even inside another word) with no "mm" → N; else "mm"
anywhere → mm; else the unit stays null. -/
theorem threshold_only_branch (q : String) (v : ℚ)
    (hU : (unitPatternScan (pyLower q).toList).bind normUnitTok = none)
    (hN : numUnitScan (pyLower q).toList = none)
    (hT : thresholdScan (pyLower q).toList = some v) :
    (_regex_filters q).min_value = some v ∧
    (_regex_filters q).unit = inferUnit (pyLower q) := by
  simp only [String.toList] at hU hN hT
  simp [_regex_filters, hU, hN, hT]

/-- Witness for C7 (amended) at "show tests above 100": min_value is set
to 100 and no "kn"/"kilo"/"n"/"mm" substring occurs, so the unit stays
null. -/
theorem threshold_only_branch_witness :
    (_regex_filters "show tests above 100").min_value = some 100 ∧
    (_regex_filters "show tests above 100").unit = inferUnit (pyLower "show tests above 100") :=
  threshold_only_branch "show tests above 100" 100 (by decide) (by decide) (by decide)

/-- C10: status and component detection in `_regex_filters` are raw
substring tests with no word-boundary check — any query containing "pass"
(and no "fail") gets status "pass", "doorbell check" gets component
"door", and "shears" gets the shear metric — while the requirement
extractor counterparts are word-boundary anchored and reject the same
inputs. -/
theorem filters_substring_vs_req_word_boundary :
    (∀ q : String, pyIn "pass" (pyLower q) = true → pyIn "fail" (pyLower q) = false →
      (_regex_filters q).status = some "pass") ∧
    (_regex_filters "doorbell check").component = some "door" ∧
    (_regex_req "doorbell check").component = none ∧
    (_regex_filters "shears").metric = some "shear_strength" ∧
    _alias_metric "shears" = none := by
  refine ⟨?_, by decide, by decide, by decide, by decide⟩
  intro q hp hf
  have hfailed : pyIn "failed" (pyLower q) = false := by
    cases h : pyIn "failed" (pyLower q) with
    | false => rfl
    | true =>
      rw [pyIn_def] at hf
      rw [@infixOf_mono ("fail".toList) ("failed".toList) (by decide) _ h] at hf
      exact Bool.noConfusion hf
  show (statusStep (pyLower q)).1 = some "pass"
  rw [statusStep]
  simp only [hfailed, hf, Bool.false_eq_true, if_false]
  cases hpd : pyIn "passed" (pyLower q) <;> simp [hpd, hp]

/-- Witness for C10 at the concrete query "bypass" of the claim. -/
theorem filters_substring_vs_req_word_boundary_witness :
    (_regex_filters "bypass").status = some "pass" :=
  filters_substring_vs_req_word_boundary.1 "bypass" (by decide) (by decide)

/-! ## JSON values and `json.loads` (used by the LLM response paths) -/

/-- JSON values. -/
inductive JVal where
  | null
  | bool (b : Bool)
  | num (q : ℚ)
  | str (s : String)
  | arr (xs : List JVal)
  | obj (kvs : List (String × JVal))

/-- JSON whitespace. -/
def isJWs (c : Char) : Bool := c = ' ' ∨ c = '\t' ∨ c = '\n' ∨ c = '\r'

/-- Skip JSON whitespace. -/
def skipJWs (s : List Char) : List Char := s.dropWhile isJWs

/-- Hexadecimal digit value. -/
def hexVal (c : Char) : Option Nat :=
  if '0' ≤ c ∧ c ≤ '9' then some (c.toNat - '0'.toNat)
  else if 'a' ≤ c ∧ c ≤ 'f' then some (c.toNat - 'a'.toNat + 10)
  else if 'A' ≤ c ∧ c ≤ 'F' then some (c.toNat - 'A'.toNat + 10)
  else none

/-- JSON string body parser (after the opening quote), with the standard
escapes; fuel-bounded. -/
def parseJStringAux : Nat → List Char → List Char → Option (String × List Char)
  | 0, _, _ => none
  | _ + 1, acc, '"' :: rest => some (⟨acc.reverse⟩, rest)
  | n + 1, acc, '\\' :: c :: rest =>
    if c = '"' then parseJStringAux n ('"' :: acc) rest
    else if c = '\\' then parseJStringAux n ('\\' :: acc) rest
    else if c = '/' then parseJStringAux n ('/' :: acc) rest
    else if c = 'n' then parseJStringAux n ('\n' :: acc) rest
    else if c = 't' then parseJStringAux n ('\t' :: acc) rest
    else if c = 'r' then parseJStringAux n ('\r' :: acc) rest
    else if c = 'b' then parseJStringAux n ('\x08' :: acc) rest
    else if c = 'f' then parseJStringAux n ('\x0c' :: acc) rest
    else if c = 'u' then
      match rest with
      | h1 :: h2 :: h3 :: h4 :: rest2 =>
        (hexVal h1).bind fun v1 => (hexVal h2).bind fun v2 =>
          (hexVal h3).bind fun v3 => (hexVal h4).bind fun v4 =>
            parseJStringAux n (Char.ofNat (((v1 * 16 + v2) * 16 + v3) * 16 + v4) :: acc) rest2
      | _ => none
    else none
  | n + 1, acc, c :: rest => parseJStringAux n (c :: acc) rest
  | _ + 1, _, [] => none

/-- JSON number parser: `-?digits(.digits)?([eE][+-]?digits)?`. -/
def parseJNum (s : List Char) : Option (ℚ × List Char) :=
  let (neg, s1) : Bool × List Char :=
    match s with
    | '-' :: r => (true, r)
    | _ => (false, s)
  match takeDigits s1 with
  | ([], _) => none
  | (ds, r1) =>
    let frac : Option (List Char × List Char) :=
      match r1 with
      | '.' :: rr =>
        match takeDigits rr with
        | ([], _) => none
        | (fs, r2) => some (fs, r2)
      | _ => some ([], r1)
    frac.bind fun (fs, r2) =>
      let expPart : Option (ℤ × List Char) :=
        match r2 with
        | e :: r3 =>
          if e = 'e' ∨ e = 'E' then
            let (esgn, r4) : Bool × List Char :=
              match r3 with
              | '+' :: rr => (false, rr)
              | '-' :: rr => (true, rr)
              | _ => (false, r3)
            match takeDigits r4 with
            | ([], _) => none
            | (es, r5) =>
              some ((if esgn then -(digitsToNat es : ℤ) else (digitsToNat es : ℤ)), r5)
          else some (0, e :: r3)
        | [] => some (0, [])
      expPart.bind fun (ex, r5) =>
        let base := decimalToRat ds fs
        let scaled := base * (10 : ℚ) ^ ex
        some ((if neg then -scaled else scaled), r5)

mutual

/-- JSON value parser, fuel-bounded; models `json.loads` recursive
descent. -/
def parseJVal : Nat → List Char → Option (JVal × List Char)
  | 0, _ => none
  | n + 1, s =>
    match skipJWs s with
    | [] => none
    | c :: rest =>
      if c = 'n' then
        if "ull".toList.isPrefixOf rest then some (.null, rest.drop 3) else none
      else if c = 't' then
        if "rue".toList.isPrefixOf rest then some (.bool true, rest.drop 3) else none
      else if c = 'f' then
        if "alse".toList.isPrefixOf rest then some (.bool false, rest.drop 4) else none
      else if c = '"' then
        (parseJStringAux n [] rest).map fun (k, r) => (.str k, r)
      else if c = '\x7b' then
        match skipJWs rest with
        | '\x7d' :: r2 => some (.obj [], r2)
        | _ => (parseJMembers n rest).map fun (kvs, r) => (.obj kvs, r)
      else if c = '[' then
        match skipJWs rest with
        | ']' :: r2 => some (.arr [], r2)
        | _ => (parseJElems n rest).map fun (xs, r) => (.arr xs, r)
      else (parseJNum (c :: rest)).map fun (v, r) => (.num v, r)

/-- Object member list parser (`"k": v`, comma separated, closing brace). -/
def parseJMembers : Nat → List Char → Option (List (String × JVal) × List Char)
  | 0, _ => none
  | n + 1, s =>
    match skipJWs s with
    | '"' :: r1 =>
      (parseJStringAux n [] r1).bind fun (k, r2) =>
        match skipJWs r2 with
        | ':' :: r3 =>
          (parseJVal n r3).bind fun (v, r4) =>
            match skipJWs r4 with
            | ',' :: r5 => (parseJMembers n r5).map fun (kvs, r6) => ((k, v) :: kvs, r6)
            | '\x7d' :: r5 => some ([(k, v)], r5)
            | _ => none
        | _ => none
    | _ => none

/-- Array element list parser. -/
def parseJElems : Nat → List Char → Option (List JVal × List Char)
  | 0, _ => none
  | n + 1, s =>
    (parseJVal n s).bind fun (v, r1) =>
      match skipJWs r1 with
      | ',' :: r2 => (parseJElems n r2).map fun (xs, r3) => (v :: xs, r3)
      | ']' :: r2 => some ([v], r2)
      | _ => none

end

/-- `json.loads` on a character list: one value, only whitespace may
follow. -/
def jsonLoads (s : List Char) : Option JVal :=
  match parseJVal (s.length + 1) s with
  | some (v, rest) => if skipJWs rest = [] then some v else none
  | none => none

/-- `re.search(r"\x7b.*\x7d", content, re.DOTALL)`: from the leftmost
opening brace that has a closing brace after it, through the last closing
brace of the whole text (greedy `.*` with DOTALL). -/
def extractBraceSpan (s : List Char) : Option (List Char) :=
  ((s.reverse.findIdx? (fun c => c = '\x7d')).map fun i => s.length - 1 - i).bind
    fun J =>
      ((s.take J).findIdx? (fun c => c = '\x7b')).map fun i =>
        (s.drop i).take (J - i + 1)

/-- Python-dict lookup on parsed members (a duplicate key keeps the last
value, as in `json.loads`). -/
def jLookup (kvs : List (String × JVal)) (k : String) : Option JVal :=
  (kvs.reverse.find? (fun kv => kv.1 == k)).map Prod.snd

/-- The `clean_data` step of `extract_requirement_text_to_json`: drop
null-valued keys. -/
def cleanData (kvs : List (String × JVal)) : List (String × JVal) :=
  kvs.filter fun kv =>
    match kv.2 with
    | .null => false
    | _ => true

/-- Pydantic validation of an optional string field: absent or null is
None; a string is accepted; any other type is a validation error. -/
def getOptStr (kvs : List (String × JVal)) (k : String) : Option (Option String) :=
  match jLookup kvs k with
  | none => some none
  | some .null => some none
  | some (.str s) => some (some s)
  | some _ => none

/-- Pydantic validation of an optional number field. -/
def getOptNum (kvs : List (String × JVal)) (k : String) : Option (Option ℚ) :=
  match jLookup kvs k with
  | none => some none
  | some .null => some none
  | some (.num q) => some (some q)
  | some _ => none

/-- `ReqJSON(**clean_data)`: validate the six fields (extra keys are
ignored, pydantic default); `none` is a `ValidationError`. -/
def validateReqJson (kvs : List (String × JVal)) : Option ReqJSON :=
  (getOptStr kvs "metric").bind fun metric =>
    (getOptStr kvs "comparator").bind fun comparator =>
      (getOptNum kvs "value").bind fun value =>
        (getOptStr kvs "unit").bind fun unit =>
          (getOptStr kvs "component").bind fun component =>
            (getOptStr kvs "condition").map fun condition =>
              ⟨metric, comparator, value, unit, component, condition⟩

/-- `ChatFilter(**data)`: validate the five filter fields. -/
def validateChatFilter (kvs : List (String × JVal)) : Option ChatFilter :=
  (getOptStr kvs "component").bind fun component =>
    (getOptStr kvs "metric").bind fun metric =>
      (getOptStr kvs "status").bind fun status =>
        (getOptNum kvs "min_value").bind fun min_value =>
          (getOptStr kvs "unit").map fun unit =>
            ⟨component, metric, status, min_value, unit⟩

/-! ## The reasoning backend and the three consumers (core/extract.py,
core/llm_providers.py) -/

/-- The backend adapter of core/llm_providers.py: availability (the key
is present) and the chat call; `Except.error` models a raised exception
(transport error / API error). -/
structure Backend where
  available : Bool
  chat : List (String × String) → Except String String

/-- `have_llm()`. -/
def have_llm (b : Backend) : Bool := b.available

/-- `REQ_SYS_PROMPT` of core/extract.py. -/
def REQ_SYS_PROMPT : String :=
  "You extract structured requirement facts as JSON.\nReturn ONLY a JSON object with keys:\nmetric (snake_case), comparator (one of ≥, ≤, =, <, >), value (number), unit (kN/N/mm),\ncomponent (snake_case if present), condition (string or null).\nIf ambiguous, use nulls. Do not add extra keys."

/-- The message list sent by `extract_requirement_text_to_json`
(`REQ_USER_TMPL.format(TEXT=text)`). -/
def reqMessages (text : String) : List (String × String) :=
  [("system", REQ_SYS_PROMPT), ("user", "Text:\n---\n" ++ text ++ "\n---")]

/-- The all-null `ReqJSON()` record returned for empty text. -/
def allNullReq : ReqJSON := ⟨none, none, none, none, none, none⟩

/-- The deterministic (no-backend) extraction behaviour: empty or
whitespace-only text gives the all-null record, otherwise the regex
fallback on the stripped text. -/
def detExtract (text : String) : ReqJSON :=
  let t := pyStrip text
  if t = "" then allNullReq else _regex_req t

/-- The response-processing part of the backend path of
`extract_requirement_text_to_json` (lines 90–99): locate the brace span
(else parse the raw content), `json.loads`, require a JSON object
(`data.items()`), drop nulls, validate; `none` is any caught exception. -/
def reqResponsePipeline (content : String) : Option ReqJSON :=
  let parsed :=
    match extractBraceSpan content.toList with
    | some sub => jsonLoads sub
    | none => jsonLoads content.toList
  match parsed with
  | some (.obj kvs) => validateReqJson (cleanData kvs)
  | _ => none

/-- `extract_requirement_text_to_json(text)` of core/extract.py,
parameterized by the backend. -/
def extract_requirement_text_to_json (b : Backend) (text : String) : ReqJSON :=
  let t := pyStrip text
  if t = "" then allNullReq
  else if have_llm b then
    match b.chat (reqMessages t) with
    | .error _ => _regex_req t
    | .ok content =>
      match reqResponsePipeline content with
      | some r => r
      | none => _regex_req t
  else _regex_req t

/-- `CHAT_SYS` of core/extract.py. -/
def CHAT_SYS : String :=
  "You convert a user\x27s query about tests into JSON filters with keys:\ncomponent, metric, status (pass/fail/unknown), min_value (number), unit.\n\nIMPORTANT RULES:\n- Words like \"failed\", \"passing\", \"passed\" are STATUS not component names\n- Component names are physical parts like \"door\", \"bumper\", \"engine\", etc.\n- Status values: \"fail\" for failed/failing, \"pass\" for passed/passing\n\nExamples:\n- \"show failed components\" → \x7b\"status\": \"fail\"\x7d  \n- \"show failed components with kN unit\" → \x7b\"status\": \"fail\", \"unit\": \"kN\"\x7d\n- \"show tests with unit kN\" → \x7b\"unit\": \"kN\"\x7d\n- \"show failed tests > 100 N\" → \x7b\"status\": \"fail\", \"min_value\": 100, \"unit\": \"N\"\x7d\n- \"show door components with kN unit\" → \x7b\"component\": \"door\", \"unit\": \"kN\"\x7d\n- \"show passed door tests\" → \x7b\"component\": \"door\", \"status\": \"pass\"\x7d\n\nReturn ONLY JSON. If a key is absent, omit it."

/-- The message list sent by `parse_query_to_filters`. -/
def chatMessages (q : String) : List (String × String) :=
  [("system", CHAT_SYS), ("user", q)]

/-- The response-processing part of the backend path of
`parse_query_to_filters` (lines 250–256). -/
def filterResponsePipeline (content : String) : Option ChatFilter :=
  let parsed :=
    match extractBraceSpan content.toList with
    | some sub => jsonLoads sub
    | none => jsonLoads content.toList
  match parsed with
  | some (.obj kvs) => validateChatFilter kvs
  | _ => none

/-- `parse_query_to_filters(q)` of core/extract.py, parameterized by the
backend. -/
def parse_query_to_filters (b : Backend) (q : String) : ChatFilter :=
  if have_llm b then
    match b.chat (chatMessages q) with
    | .error _ => _regex_filters q
    | .ok content =>
      match filterResponsePipeline content with
      | some f => f
      | none => _regex_filters q
  else _regex_filters q

/-! ## Explanation generator (core/extract.py, `explain_from_facts`) -/

/-- Decimal digits of a natural number, most significant first
(fuel-bounded). -/
def digitsOfNat : Nat → Nat → List Char
  | 0, _ => []
  | f + 1, n =>
    if n < 10 then [Char.ofNat ('0'.toNat + n)]
    else digitsOfNat f (n / 10) ++ [Char.ofNat ('0'.toNat + n % 10)]

/-- Decimal string of a natural number. -/
def natStr (n : Nat) : String := ⟨digitsOfNat 40 n⟩

/-- Drop trailing zero characters. -/
def stripTrailingZeros (s : List Char) : List Char :=
  (s.reverse.dropWhile (fun c => c = '0')).reverse

/-- `10^k` for an integer exponent. -/
def pow10Q (k : ℤ) : ℚ :=
  if 0 ≤ k then (10 : ℚ) ^ k.toNat else 1 / (10 : ℚ) ^ (-k).toNat

/-- Floor of `log10` of a positive rational, searched over the exponent
range of IEEE doubles. -/
def ilog10 (q : ℚ) : ℤ :=
  match (List.range 801).find?
      (fun i => decide (pow10Q ((i : ℤ) - 400) ≤ q) &&
        decide (q < pow10Q ((i : ℤ) - 400 + 1))) with
  | some i => (i : ℤ) - 400
  | none => 0

/-- Python `format(x, ".3g")` for positive `x`: three significant digits,
fixed form for exponents in `[-4, 3)` with trailing zeros stripped,
scientific form (two-digit exponent) otherwise. -/
def fmt3gPos (q : ℚ) : String :=
  let e0 := ilog10 q
  let n0 := round (q / pow10Q (e0 - 2))
  let (n, e) : ℤ × ℤ := if n0 ≥ 1000 then (100, e0 + 1) else (n0, e0)
  let ds := digitsOfNat 10 n.toNat
  if -4 ≤ e ∧ e < 3 then
    if 0 ≤ e then
      let ip := ds.take (e.toNat + 1)
      let fp := stripTrailingZeros (ds.drop (e.toNat + 1))
      ⟨ip ++ (if fp = [] then [] else '.' :: fp)⟩
    else
      let zeros := List.replicate ((-e).toNat - 1) '0'
      let fp := stripTrailingZeros (zeros ++ ds)
      ⟨'0' :: '.' :: fp⟩
  else
    let fp := stripTrailingZeros (ds.drop 1)
    let mant := ds.take 1 ++ (if fp = [] then [] else '.' :: fp)
    let esign := if e < 0 then '-' else '+'
    let eabs := (if e < 0 then -e else e).toNat
    let eds := digitsOfNat 10 eabs
    let eds2 := if eds.length < 2 then '0' :: eds else eds
    ⟨mant ++ ('e' :: esign :: eds2)⟩

/-- Python `format(x, ".3g")`. -/
def fmt3g (q : ℚ) : String :=
  if q = 0 then "0"
  else if q < 0 then "-" ++ fmt3gPos (-q)
  else fmt3gPos q

/-- `f"\x7bx:.3g\x7d"` applied to an optional number.  In the source a
missing value would raise a `TypeError` here; that branch is unreachable
for validator-produced facts (`measured_norm` is present whenever the
status is pass or fail, see the C4 theorems), so the `none` case is
modelled by the literal "None". -/
def fmt3gOpt : Option ℚ → String
  | none => "None"
  | some q => fmt3g q

/-- Python float `repr`, used by plain f-string interpolation and
`json.dumps`: exact decimal when the denominator divides a power of ten
(every value arising from the claims), integer-valued floats get a
trailing ".0". -/
def pyFloatStr (q : ℚ) : String :=
  let sign := if q < 0 then "-" else ""
  let n := q.num.natAbs
  let d := q.den
  if d = 1 then sign ++ natStr n ++ ".0"
  else
    match (List.range 31).find? (fun k => 10 ^ k % d = 0) with
    | some k =>
      let scaled := n * 10 ^ k / d
      let ip := scaled / 10 ^ k
      let fp := scaled % 10 ^ k
      let fpds := digitsOfNat 40 fp
      let pad := List.replicate (k - fpds.length) '0'
      sign ++ natStr ip ++ "." ++ ⟨stripTrailingZeros (pad ++ fpds)⟩
    | none => sign ++ natStr n ++ "/" ++ natStr d
/-- Plain f-string interpolation of an optional string (`None` prints as
"None"). -/
def pyOptStr : Option String → String
  | none => "None"
  | some s => s

/-- Plain f-string interpolation of an optional float. -/
def pyOptFloat : Option ℚ → String
  | none => "None"
  | some q => pyFloatStr q

/-- The `facts` dict passed to `explain_from_facts` (built in
app/main.py). -/
structure Facts where
  run_id : Option String
  component : Option String
  metric : Option String
  status : Option String
  measured_norm : Option ℚ
  target : Option ℚ
  unit : Option String

/-- JSON string literal (the fact strings contain no characters needing
escapes). -/
def jStr (s : String) : String := "\"" ++ s ++ "\""

/-- `json.dumps` of an optional string. -/
def jOptStr : Option String → String
  | none => "null"
  | some s => jStr s

/-- `json.dumps` of an optional number. -/
def jOptNum : Option ℚ → String
  | none => "null"
  | some q => pyFloatStr q

/-- `json.dumps(facts)` (dict insertion order of app/main.py). -/
def dumpsFacts (f : Facts) : String :=
  "\x7b\"run_id\": " ++ jOptStr f.run_id ++ ", \"component\": " ++ jOptStr f.component ++
    ", \"metric\": " ++ jOptStr f.metric ++ ", \"status\": " ++ jOptStr f.status ++
    ", \"measured_norm\": " ++ jOptNum f.measured_norm ++ ", \"target\": " ++
    jOptNum f.target ++ ", \"unit\": " ++ jOptStr f.unit ++ "\x7d"

/-- The deterministic template path of `explain_from_facts`
(lines 114–123). -/
def deterministicExplain (f : Facts) : String :=
  let st := f.status.getD "unknown"
  if st = "pass" then
    "Pass: measured " ++ fmt3gOpt f.measured_norm ++ " " ++ pyOptStr f.unit ++
      " meets target " ++ pyOptFloat f.target ++ " " ++ pyOptStr f.unit ++ "."
  else if st = "fail" then
    "Fail: measured " ++ fmt3gOpt f.measured_norm ++ " " ++ pyOptStr f.unit ++
      " is below/above target " ++ pyOptFloat f.target ++ " " ++ pyOptStr f.unit ++ "."
  else "Unknown: missing unit/comparator/data."

/-- The prompt of the backend path of `explain_from_facts`. -/
def explainPrompt (f : Facts) : String :=
  "Using ONLY these JSON facts, write 2 short bullets explaining the result.\nFacts: " ++
    dumpsFacts f ++ "\n"

/-- `explain_from_facts(facts)` of core/extract.py, parameterized by the
backend. -/
def explain_from_facts (b : Backend) (f : Facts) : String :=
  if have_llm b then
    match b.chat [("user", explainPrompt f)] with
    | .ok content => pyStrip content
    | .error _ => "Explanation unavailable."
  else deterministicExplain f

/-! ## Claim C3 (backend failure handling) -/

/-- Counterexample to C3: with an available backend whose chat call
raises, `explain_from_facts` returns the fixed string "Explanation
unavailable.", not the result of its deterministic counterpart (which,
for these facts, is the unknown-status template). -/
theorem explain_transport_error_not_deterministic :
    explain_from_facts ⟨true, fun _ => .error "boom"⟩
        ⟨none, none, none, some "unknown", none, none, none⟩ =
      "Explanation unavailable." ∧
    deterministicExplain ⟨none, none, none, some "unknown", none, none, none⟩ =
      "Unknown: missing unit/comparator/data." ∧
    explain_from_facts ⟨true, fun _ => .error "boom"⟩
        ⟨none, none, none, some "unknown", none, none, none⟩ ≠
      deterministicExplain ⟨none, none, none, some "unknown", none, none, none⟩ := by
  refine ⟨rfl, rfl, by decide⟩

/-- C3 (amended): all backend failures are absorbed, never propagated
(the consumers are total functions of the backend value):
`extract_requirement_text_to_json` and `parse_query_to_filters` return
the deterministic fallback result whenever the backend is unavailable,
the chat call raises, or the response yields no schema-valid JSON
object; `explain_from_facts` returns its deterministic template when the
backend is unavailable, but on a raising chat call it returns the fixed
string "Explanation unavailable." instead of the deterministic
template. -/
theorem backend_failures_fall_through (b : Backend) (text q : String) (f : Facts)
    (e content : String) :
    (b.available = false →
      extract_requirement_text_to_json b text = detExtract text ∧
      parse_query_to_filters b q = _regex_filters q ∧
      explain_from_facts b f = deterministicExplain f) ∧
    (b.available = true → b.chat (reqMessages (pyStrip text)) = .error e →
      extract_requirement_text_to_json b text = detExtract text) ∧
    (b.available = true → b.chat (reqMessages (pyStrip text)) = .ok content →
      reqResponsePipeline content = none →
      extract_requirement_text_to_json b text = detExtract text) ∧
    (b.available = true → b.chat (chatMessages q) = .error e →
      parse_query_to_filters b q = _regex_filters q) ∧
    (b.available = true → b.chat (chatMessages q) = .ok content →
      filterResponsePipeline content = none →
      parse_query_to_filters b q = _regex_filters q) ∧
    (b.available = true → b.chat [("user", explainPrompt f)] = .error e →
      explain_from_facts b f = "Explanation unavailable.") := by
  refine ⟨?_, ?_, ?_, ?_, ?_, ?_⟩
  · intro h
    refine ⟨?_, ?_, ?_⟩
    · by_cases ht : pyStrip text = "" <;>
        simp [extract_requirement_text_to_json, detExtract, have_llm, h, ht]
    · simp [parse_query_to_filters, have_llm, h]
    · simp [explain_from_facts, have_llm, h]
  · intro h hc
    by_cases ht : pyStrip text = "" <;>
      simp [extract_requirement_text_to_json, detExtract, have_llm, h, ht, hc]
  · intro h hc hp
    by_cases ht : pyStrip text = "" <;>
      simp [extract_requirement_text_to_json, detExtract, have_llm, h, ht, hc, hp]
  · intro h hc
    simp [parse_query_to_filters, have_llm, h, hc]
  · intro h hc hp
    simp [parse_query_to_filters, have_llm, h, hc, hp]
  · intro h hc
    simp [explain_from_facts, have_llm, h, hc]

/-- Witness for C3 (amended) at concrete backends: one unavailable, one
whose chat raises, and one that answers with text containing no JSON
object. -/
theorem backend_failures_fall_through_witness :
    extract_requirement_text_to_json ⟨false, fun _ => .ok "x"⟩ "min 5 kN" =
      detExtract "min 5 kN" ∧
    parse_query_to_filters ⟨true, fun _ => .error "boom"⟩ "show failed door tests" =
      _regex_filters "show failed door tests" ∧
    extract_requirement_text_to_json ⟨true, fun _ => .ok "no json here"⟩ "min 5 kN" =
      detExtract "min 5 kN" ∧
    explain_from_facts ⟨true, fun _ => .error "boom"⟩
        ⟨none, none, none, some "pass", some 6, some 5.5, some "kN"⟩ =
      "Explanation unavailable." :=
  ⟨(backend_failures_fall_through ⟨false, fun _ => .ok "x"⟩ "min 5 kN" "q"
      ⟨none, none, none, none, none, none, none⟩ "" "").1 rfl |>.1,
   (backend_failures_fall_through ⟨true, fun _ => .error "boom"⟩ ""
      "show failed door tests" ⟨none, none, none, none, none, none, none⟩ "boom" "").2.2.2.1
      rfl rfl,
   (backend_failures_fall_through ⟨true, fun _ => .ok "no json here"⟩ "min 5 kN" "q"
      ⟨none, none, none, none, none, none, none⟩ "" "no json here").2.2.1 rfl rfl (by decide),
   (backend_failures_fall_through ⟨true, fun _ => .error "boom"⟩ "" "q"
      ⟨none, none, none, some "pass", some 6, some 5.5, some "kN"⟩ "boom" "").2.2.2.2.2
      rfl rfl⟩

/-! ## app/main.py — applying chat filters to the validated result set -/

/-- One row of the validated result table `st.session_state.out` (only
the fields the filter logic reads are modelled; a pandas NaN cell is
`none`). -/
structure OutRow where
  test_id : Option String
  req_id : Option String
  component : Option String
  status : String
  measured_norm : Option ℚ
  target : Option ℚ
  unit : Option String
deriving DecidableEq

/-- Python truthiness of `f.get(key)` for an optional string (the empty
string is falsy). -/
def optStrTruthy : Option String → Bool
  | none => false
  | some s => s ≠ ""

/-- Python truthiness of `f.get("min_value")` (0.0 is falsy). -/
def optRatTruthy : Option ℚ → Bool
  | none => false
  | some v => v ≠ 0

/-- `vf["component"].str.contains(f["component"], case=False, na=False)`
for one cell (the component vocabulary contains no regex
metacharacters, so `contains` is substring containment). -/
def cellContainsCI : Option String → String → Bool
  | none, _ => false
  | some cell, sub => infixOf (sub.toList.map lcChar) (cell.toList.map lcChar)

/-- Row conversion of the fallback branch of the min_value+unit filter:
`normalize(row["measured_norm"], row["unit"], target_unit)`.  A NaN unit
makes `parse_units` raise and a NaN measurement propagates to a false
comparison; both are modelled as `none` (the row is excluded either
way). -/
def rowConvert (r : OutRow) (target : String) : Option ℚ :=
  match r.measured_norm, r.unit with
  | some m, some u => normalize m u target
  | _, _ => none

/-- The min_value+unit stage of "Apply chat filters" (app/main.py lines
136–152): if any row has exactly the target unit, keep the
matching-unit rows meeting the threshold; otherwise convert every row
into the target unit and keep the ones meeting the threshold, silently
dropping rows whose conversion fails. -/
def minUnitStage (minv : ℚ) (target : String) (rows : List OutRow) : List OutRow :=
  if rows.any (fun r => r.unit == some target) then
    rows.filter fun r =>
      r.unit == some target &&
        match r.measured_norm with
        | some m => decide (minv ≤ m)
        | none => false
  else
    rows.filter fun r =>
      match rowConvert r target with
      | some c => decide (minv ≤ c)
      | none => false

/-- The "Apply chat filters" block of app/main.py (lines 113–156):
component substring filter, exact status filter, unit-only filter, then
the min_value logic. -/
def applyChatFilters (f : ChatFilter) (out : List OutRow) : List OutRow :=
  let vf := out
  let vf :=
    if optStrTruthy f.component then
      vf.filter fun r => cellContainsCI r.component (f.component.getD "")
    else vf
  let vf :=
    if optStrTruthy f.status then vf.filter fun r => r.status == f.status.getD ""
    else vf
  let vf :=
    if optStrTruthy f.unit && !optRatTruthy f.min_value then
      vf.filter fun r => r.unit == f.unit
    else vf
  if optRatTruthy f.min_value then
    if optStrTruthy f.unit then minUnitStage (f.min_value.getD 0) (f.unit.getD "") vf
    else
      vf.filter fun r =>
        match r.measured_norm with
        | some m => decide (f.min_value.getD 0 ≤ m)
        | none => false
  else vf

/-! ## Claim C9 (min_value + unit filter application) -/

/-- C9: applying a filter carrying both min_value and unit to the result
set: when at least one row has exactly the filter unit, the surviving
rows are exactly the rows with that unit whose `measured_norm` meets the
threshold; when no row has that unit, the surviving rows are exactly
those whose conversion into the filter unit succeeds and meets the
threshold — a row whose conversion fails is silently excluded (the
filter itself is a total function, it never errors). -/
theorem min_value_unit_filter (v : ℚ) (u : String) (rows : List OutRow) (r : OutRow)
    (hv : v ≠ 0) (hu : u ≠ "") :
    ((∃ r2 ∈ rows, r2.unit = some u) →
      (r ∈ applyChatFilters ⟨none, none, none, some v, some u⟩ rows ↔
        r ∈ rows ∧ r.unit = some u ∧ ∃ m, r.measured_norm = some m ∧ v ≤ m)) ∧
    ((∀ r2 ∈ rows, r2.unit ≠ some u) →
      (r ∈ applyChatFilters ⟨none, none, none, some v, some u⟩ rows ↔
        r ∈ rows ∧ ∃ c, rowConvert r u = some c ∧ v ≤ c)) := by
  have hstage : applyChatFilters ⟨none, none, none, some v, some u⟩ rows =
      minUnitStage v u rows := by
    simp [applyChatFilters, optStrTruthy, optRatTruthy, hv, hu]
  have hany :
      (rows.any (fun r2 => r2.unit == some u) = true) ↔ ∃ r2 ∈ rows, r2.unit = some u := by
    simp [List.any_eq_true]
  constructor
  · intro hex
    have h : rows.any (fun r2 => r2.unit == some u) = true := hany.mpr hex
    rw [hstage, minUnitStage, if_pos h, List.mem_filter]
    cases hm : r.measured_norm <;> simp [hm]
  · intro hall
    have h : ¬ rows.any (fun r2 => r2.unit == some u) = true := by
      intro hb
      obtain ⟨r2, hr2, he⟩ := hany.mp hb
      exact absurd he (hall r2 hr2)
    rw [hstage, minUnitStage, if_neg h, List.mem_filter]
    cases hc : rowConvert r u <;> simp [hc]

/-- Witness for C9 at a concrete result set: with one kN row present, an
exact-unit filter keeps it; with none, a 2000 N row is kept through
conversion into kN. -/
theorem min_value_unit_filter_witness :
    (⟨some "t1", some "r1", some "door", "pass", some 6, some 5.5, some "kN"⟩ : OutRow) ∈
      applyChatFilters ⟨none, none, none, some 1, some "kN"⟩
        [⟨some "t1", some "r1", some "door", "pass", some 6, some 5.5, some "kN"⟩] ∧
    (⟨some "t2", some "r2", some "door", "pass", some 2000, some 5.5, some "N"⟩ : OutRow) ∈
      applyChatFilters ⟨none, none, none, some 1, some "kN"⟩
        [⟨some "t2", some "r2", some "door", "pass", some 2000, some 5.5, some "N"⟩] := by
  constructor
  · exact ((min_value_unit_filter 1 "kN"
        [⟨some "t1", some "r1", some "door", "pass", some 6, some 5.5, some "kN"⟩]
        ⟨some "t1", some "r1", some "door", "pass", some 6, some 5.5, some "kN"⟩
        (by norm_num) (by decide)).1
      ⟨_, List.mem_singleton.mpr rfl, rfl⟩).mpr
      ⟨List.mem_singleton.mpr rfl, rfl, 6, rfl, by norm_num⟩
  · refine ((min_value_unit_filter 1 "kN"
        [⟨some "t2", some "r2", some "door", "pass", some 2000, some 5.5, some "N"⟩]
        ⟨some "t2", some "r2", some "door", "pass", some 2000, some 5.5, some "N"⟩
        (by norm_num) (by decide)).2 ?_).mpr
      ⟨List.mem_singleton.mpr rfl, 2, ?_, by norm_num⟩
    · intro r2 hr2
      rw [List.mem_singleton.mp hr2]
      decide
    · show normalize 2000 "N" "kN" = some 2
      simp [normalize, unitTable]
      norm_num

end ProjectLLM


